import Mathlib

/-!
# Rosetta for Celo: account balance endpoint and the run command

A shallow embedding of the two Go source files

* api/api_account_service.go : AccountApiService.AccountBalance
* cmd/run.go                 : getDatadir, rosettaServiceFactory, runRunCmd

Calls that leave a function (to the node client, to the service package, to
the operating system) are answered by an explicit environment and every such
call is appended to a trace, so that statements about which calls happen, in
which order and with which arguments are statements about a list.
-/

namespace Rosetta

/-! ## Go errors -/

/-- Go error values: errors.New-style leaves and the wrapError that
fmt.Errorf builds for a format string with one %w verb. -/
inductive GoError where
  | errorString (msg : String)
  | wrapError (msg : String) (err : GoError)
deriving DecidableEq, Repr

/-- The Error() method. -/
def GoError.Error : GoError → String
  | .errorString msg => msg
  | .wrapError msg _ => msg

/-- The errors.Unwrap function: the wrapped error of a wrapError, nil otherwise. -/
def GoError.Unwrap : GoError → Option GoError
  | .errorString _ => none
  | .wrapError _ err => some err

/-- The call fmt.Errorf(format ++ "%w", err) for a format without further
verbs: the message is the format followed by err.Error(), and the result
unwraps to err. -/
def Errorf_w (format : String) (err : GoError) : GoError :=
  .wrapError (format ++ err.Error) err

/-- The String() method of big.Int: the decimal digits, with a leading minus sign for
negative values. -/
def bigIntString : Int → String
  | .ofNat n => Nat.repr n
  | .negSucc n => "-" ++ Nat.repr (n + 1)

/-! ## Data model of the API (fields as used by the source) -/

/-- An opaque context.Context token handed through to the client. -/
structure Context where
  id : Nat
deriving DecidableEq, Repr

/-- A 20-byte account address, as its numeric value. -/
structure Address where
  val : Nat
deriving DecidableEq, Repr

/-- Chain parameters discovered by the node manager. -/
structure ChainParameters where
  ChainId : Int
  EpochSize : Nat
deriving DecidableEq, Repr

structure NetworkIdentifier where
  Blockchain : String
  Network : String
deriving DecidableEq, Repr

structure SubAccountIdentifier where
  SubAccount : String
deriving DecidableEq, Repr

structure AccountIdentifier where
  Address : String
  SubAccount : SubAccountIdentifier
deriving DecidableEq, Repr

structure AccountBalanceRequest where
  NetworkIdentifier : NetworkIdentifier
  AccountIdentifier : AccountIdentifier
deriving DecidableEq, Repr

structure Currency where
  Symbol : String
  Decimals : Nat
deriving DecidableEq, Repr

structure Amount where
  Value : String
  Currency : Currency
deriving DecidableEq, Repr

structure Balance where
  AccountIdentifier : AccountIdentifier
  Amounts : List Amount
deriving DecidableEq, Repr

structure BlockIdentifier where
  Index : Int
  Hash : String
deriving DecidableEq, Repr

structure AccountBalanceResponse where
  BlockIdentifier : BlockIdentifier
  Balances : List Balance
deriving DecidableEq, Repr

/-- A block header of the node: its number and its hash. -/
structure Header where
  Number : Int
  Hash : String
deriving DecidableEq, Repr

/-- The bind.CallOpts fields the source sets; a BlockNumber of none is Go nil (latest). -/
structure CallOpts where
  BlockNumber : Option Int
  Context : Context
deriving DecidableEq, Repr

/-- A bound Registry contract handle. -/
structure Registry where
  handle : Nat
deriving DecidableEq, Repr

/-- A bound LockedGold contract handle. -/
structure LockedGold where
  handle : Nat
deriving DecidableEq, Repr

/-- A 32-byte registry identifier, as its numeric value. -/
structure RegistryId where
  val : Nat
deriving DecidableEq, Repr

/-! ## The node client -/

/-- The node behind celoClient.Eth, as explicit state passing over a node state σ:
every operation answers with a value or an error and a next node state. -/
structure EthClient (σ : Type) where
  HeaderByNumber : σ → Context → Option Int → Except GoError Header × σ
  BalanceAt : σ → Context → Address → Option Int → Except GoError Int × σ
  GetRegistry : σ → Except GoError Registry × σ
  GetAddressFor : σ → Registry → CallOpts → RegistryId → Except GoError Address × σ
  NewLockedGold : σ → Address → Except GoError LockedGold × σ
  GetAccountTotalLockedGold : σ → LockedGold → CallOpts → Address → Except GoError Int × σ

structure CeloClient (σ : Type) where
  Eth : EthClient σ

/-- Functions and constants the source uses that are declared outside the two
source files, taken as parameters; ε is the type of the structured error
value that BuildErrorResponse returns. -/
structure ApiDeps (ε : Type) where
  ValidateNetworkId : NetworkIdentifier → ChainParameters → Option GoError
  BuildErrorResponse : Nat → GoError → ε
  HeaderToBlockIdentifier : Header → BlockIdentifier
  HexToAddress : String → Address
  CeloGold : Currency
  LockedGoldRegistryId : RegistryId

structure AccountApiService (σ : Type) where
  celoClient : CeloClient σ
  chainParams : ChainParameters

/-- NewAccountApiService creates a default api service. -/
def NewAccountApiService {σ : Type} (celoClient : CeloClient σ) (chainParams : ChainParameters) :
    AccountApiService σ :=
  { celoClient := celoClient, chainParams := chainParams }

/-- One executed step of AccountBalance: the callee, its arguments and its answer. -/
inductive Call where
  | ValidateNetworkId (n : NetworkIdentifier) (cp : ChainParameters) (res : Option GoError)
  | HeaderByNumber (ctx : Context) (number : Option Int) (res : Except GoError Header)
  | BalanceAt (ctx : Context) (account : Address) (blockNumber : Option Int) (res : Except GoError Int)
  | GetRegistry (res : Except GoError Registry)
  | GetAddressFor (registry : Registry) (opts : CallOpts) (id : RegistryId) (res : Except GoError Address)
  | NewLockedGold (address : Address) (res : Except GoError LockedGold)
  | GetAccountTotalLockedGold (lockedGold : LockedGold) (opts : CallOpts) (account : Address)
      (res : Except GoError Int)

/-- The error of an answer, none when the answer is a value. -/
def exceptErr {α : Type} : Except GoError α → Option GoError
  | .error e => some e
  | .ok _ => none

/-- The 1-based position of the callee in the source text of AccountBalance. -/
def Call.step : Call → Nat
  | .ValidateNetworkId .. => 1
  | .HeaderByNumber .. => 2
  | .BalanceAt .. => 3
  | .GetRegistry .. => 4
  | .GetAddressFor .. => 5
  | .NewLockedGold .. => 6
  | .GetAccountTotalLockedGold .. => 7

/-- The error a step answered with, none when it succeeded. -/
def Call.err : Call → Option GoError
  | .ValidateNetworkId _ _ res => res
  | .HeaderByNumber _ _ res => exceptErr res
  | .BalanceAt _ _ _ res => exceptErr res
  | .GetRegistry res => exceptErr res
  | .GetAddressFor _ _ _ res => exceptErr res
  | .NewLockedGold _ res => exceptErr res
  | .GetAccountTotalLockedGold _ _ _ res => exceptErr res

/-- Whether the step is handed the node client (every step except the local
network-id validation). -/
def Call.usesNode : Call → Bool
  | .ValidateNetworkId .. => false
  | _ => true

/-- The block number a step is asked to read at, for the steps that carry one;
the inner none is Go nil, the latest block. -/
def Call.block : Call → Option (Option Int)
  | .HeaderByNumber _ number _ => some number
  | .BalanceAt _ _ blockNumber _ => some blockNumber
  | .GetAddressFor _ opts _ _ => some opts.BlockNumber
  | .GetAccountTotalLockedGold _ opts _ _ => some opts.BlockNumber
  | _ => none

/-- The first return value of AccountBalance (a Go interface value): either the
response struct or the value built by BuildErrorResponse. -/
inductive Reply (ε : Type) where
  | response (r : AccountBalanceResponse)
  | errorResponse (e : ε)

/-- An execution of AccountBalance: both return values, the steps executed in
order, and the node state afterwards. -/
structure Exec (ε σ : Type) where
  ret : Reply ε
  err : Option GoError
  calls : List Call
  node : σ

/-- AccountBalance - Get an Account Balance. -/
def AccountBalance {ε σ : Type} (D : ApiDeps ε) (s : AccountApiService σ) (node : σ)
    (ctx : Context) (accountBalanceRequest : AccountBalanceRequest) : Exec ε σ :=
  let v := D.ValidateNetworkId accountBalanceRequest.NetworkIdentifier s.chainParams
  let t1 := [Call.ValidateNetworkId accountBalanceRequest.NetworkIdentifier s.chainParams v]
  match v with
  | some err => ⟨.errorResponse (D.BuildErrorResponse 1 err), none, t1, node⟩
  | none =>
  let address := D.HexToAddress accountBalanceRequest.AccountIdentifier.Address
  let r2 := s.celoClient.Eth.HeaderByNumber node ctx none
  let t2 := t1 ++ [Call.HeaderByNumber ctx none r2.1]
  match r2 with
  | (.error err, node2) => ⟨.errorResponse (D.BuildErrorResponse 2 err), none, t2, node2⟩
  | (.ok latestHeader, node2) =>
  let r3 := s.celoClient.Eth.BalanceAt node2 ctx address (some latestHeader.Number)
  let t3 := t2 ++ [Call.BalanceAt ctx address (some latestHeader.Number) r3.1]
  match r3 with
  | (.error err, node3) => ⟨.errorResponse (D.BuildErrorResponse 3 err), none, t3, node3⟩
  | (.ok goldBalance, node3) =>
  let r4 := s.celoClient.Eth.GetRegistry node3
  let t4 := t3 ++ [Call.GetRegistry r4.1]
  match r4 with
  | (.error err, node4) => ⟨.errorResponse (D.BuildErrorResponse 4 err), none, t4, node4⟩
  | (.ok registry, node4) =>
  let opts5 : CallOpts := { BlockNumber := some latestHeader.Number, Context := ctx }
  let r5 := s.celoClient.Eth.GetAddressFor node4 registry opts5 D.LockedGoldRegistryId
  let t5 := t4 ++ [Call.GetAddressFor registry opts5 D.LockedGoldRegistryId r5.1]
  match r5 with
  | (.error err, node5) => ⟨.errorResponse (D.BuildErrorResponse 5 err), none, t5, node5⟩
  | (.ok lockedGoldAddr, node5) =>
  let r6 := s.celoClient.Eth.NewLockedGold node5 lockedGoldAddr
  let t6 := t5 ++ [Call.NewLockedGold lockedGoldAddr r6.1]
  match r6 with
  | (.error err, node6) => ⟨.errorResponse (D.BuildErrorResponse 6 err), none, t6, node6⟩
  | (.ok lockedGold, node6) =>
  let opts7 : CallOpts := { BlockNumber := some latestHeader.Number, Context := ctx }
  let r7 := s.celoClient.Eth.GetAccountTotalLockedGold node6 lockedGold opts7 address
  let t7 := t6 ++ [Call.GetAccountTotalLockedGold lockedGold opts7 address r7.1]
  match r7 with
  | (.error err, node7) => ⟨.errorResponse (D.BuildErrorResponse 7 err), none, t7, node7⟩
  | (.ok lockedGoldBalance, node7) =>
  let response : AccountBalanceResponse :=
    { BlockIdentifier := D.HeaderToBlockIdentifier latestHeader
      Balances := [
        { AccountIdentifier := accountBalanceRequest.AccountIdentifier
          Amounts := [{ Value := bigIntString goldBalance, Currency := D.CeloGold }] },
        { AccountIdentifier :=
            { Address := accountBalanceRequest.AccountIdentifier.Address
              SubAccount := { SubAccount := "LockedGold" } }
          Amounts := [{ Value := bigIntString lockedGoldBalance, Currency := D.CeloGold }] }] }
  ⟨.response response, none, t7, node7⟩

/-- A step was answered by the given client: applied to the node state before
the step, the callee returns the recorded answer and the node state after it. -/
def Call.answeredBy {ε σ : Type} (D : ApiDeps ε) (eth : EthClient σ) (c : Call) (before after : σ) :
    Prop :=
  match c with
  | .ValidateNetworkId n cp res => D.ValidateNetworkId n cp = res ∧ after = before
  | .HeaderByNumber ctx number res => eth.HeaderByNumber before ctx number = (res, after)
  | .BalanceAt ctx account blockNumber res => eth.BalanceAt before ctx account blockNumber = (res, after)
  | .GetRegistry res => eth.GetRegistry before = (res, after)
  | .GetAddressFor registry opts id res => eth.GetAddressFor before registry opts id = (res, after)
  | .NewLockedGold address res => eth.NewLockedGold before address = (res, after)
  | .GetAccountTotalLockedGold lockedGold opts account res =>
      eth.GetAccountTotalLockedGold before lockedGold opts account = (res, after)

/-- A trace is a run of the client from one node state to another: each step
is answered by the client in the state the previous step left. -/
def validTrace {ε σ : Type} (D : ApiDeps ε) (eth : EthClient σ) : List Call → σ → σ → Prop
  | [], before, after => after = before
  | c :: cs, before, after => ∃ mid, c.answeredBy D eth before mid ∧ validTrace D eth cs mid after

/-! ## cmd/run.go: services and the rosetta service factory -/

/-- A client connection to the node, as returned by client.Dial. -/
structure Conn where
  id : Nat
deriving DecidableEq, Repr

/-- A handle on the persistent store (db.RosettaDB). -/
structure RosettaDB where
  handle : Nat
deriving DecidableEq, Repr

/-- The rpc.RosettaServerConfig flags; RequestTimeout in nanoseconds. -/
structure RosettaServerConfig where
  Port : Nat
  Interface : String
  RequestTimeout : Nat
deriving DecidableEq, Repr

/-- One second as a time.Duration (nanoseconds). -/
def Second : Nat := 1000000000

/-- The closure that rosettaServiceFactory returns, as the values it captures. -/
inductive ServieFactory where
  | rosettaClosure (chainParams : ChainParameters) (nodeUri : String) (db : RosettaDB)
deriving DecidableEq, Repr

/-- Service values, as the constructor calls that build them: the constructors of
the geth, rpc, monitor and service packages are kept symbolic. -/
inductive Service where
  | GethService (gethBinary gethDataDir genesisPath : String) (staticNodes : List String)
  | RosettaServer (cc : Conn) (cfg : RosettaServerConfig) (chainParams : ChainParameters)
      (db : RosettaDB)
  | MonitorService (cc : Conn) (db : RosettaDB)
  | Group (members : List Service)
  | LazyService (name : String) (factory : ServieFactory)
  | WithDelay (inner : Service) (delay : Nat)
deriving Repr

/-- What a factory invocation does, in order. -/
inductive FactoryEvent where
  | Dial (nodeUri : String)
  | NewRosettaServer (cc : Conn) (cfg : RosettaServerConfig) (chainParams : ChainParameters)
      (db : RosettaDB)
  | NewMonitorService (cc : Conn) (db : RosettaDB)
deriving DecidableEq, Repr

/-- The two return values of a factory invocation and what it did. -/
structure FactoryResult where
  service : Option Service
  err : Option GoError
  events : List FactoryEvent

/-- The function rosettaServiceFactory: captures its three arguments in a closure. -/
def rosettaServiceFactory (chainParams : ChainParameters) (nodeUri : String) (db : RosettaDB) :
    ServieFactory :=
  .rosettaClosure chainParams nodeUri db

/-- Invoking the closure returned by rosettaServiceFactory: Dial answers through
the given function, rosettaRpcConfig is the package-level configuration. -/
def ServieFactory.invoke (Dial : String → Except GoError Conn)
    (rosettaRpcConfig : RosettaServerConfig) : ServieFactory → FactoryResult
  | .rosettaClosure chainParams nodeUri db =>
    match Dial nodeUri with
    | .error err =>
      { service := none
        err := some (Errorf_w "Error on client connection to geth: " err)
        events := [.Dial nodeUri] }
    | .ok cc =>
      let rosettaServerSrv := Service.RosettaServer cc rosettaRpcConfig chainParams db
      let monitorSrv := Service.MonitorService cc db
      { service := some (Service.Group [rosettaServerSrv, monitorSrv])
        err := none
        events := [.Dial nodeUri, .NewRosettaServer cc rosettaRpcConfig chainParams db,
          .NewMonitorService cc db] }

/-! ## cmd/run.go: the run command -/

/-- Who calls the cancel function of the top-level context. -/
inductive Caller where
  | signalWatcher
  | deferred
deriving DecidableEq, Repr

/-- The observable steps of runRunCmd, with the answers of the calls that can fail. -/
inductive Event where
  | exitOnMissingConfig (key : String)
  | Abs (path : String)
  | IsDirectory (path : String)
  | Crit (msg : String)
  | LogError (msg : String)
  | LogInfo (msg : String)
  | LogDebug (msg : String)
  | NewGethService (gethBinary gethDataDir genesisPath : String) (staticNodes : List String)
  | Setup (res : Option GoError)
  | ChainParameters
  | IpcFilePath
  | NewSqliteDb (path : String) (res : Option GoError)
  | WithCancel
  | WatchForExitSignals
  | RunServices (services : List Service)
  | NodeReady
  | ExitSignal
  | stopServices (caller : Caller)
  | RunServicesReturned (res : Option GoError)
  | Exit (code : Nat)
deriving Repr

/-- Everything runRunCmd asks of its surroundings: the configuration, the
filesystem, the node manager, the store, the service runner and the signal
watcher. exitOnMissingConfig answers some code when it terminates the process.
nodeReady says that the node manager, once RunServices runs it, reaches
readiness. exitSignal says that a termination signal is received after the
signal watcher has been installed, and watcherRuns that the watching goroutine
then gets to make its call before the process ends. -/
structure RunEnv where
  exitOnMissingConfig : String → Option Nat
  GetString : String → String
  staticNodes : List String
  Abs : String → Except GoError String
  IsDirectory : String → Except GoError Bool
  Join : String → String → String
  Setup : Service → Option GoError
  ChainParameters : Service → ChainParameters
  IpcFilePath : Service → String
  NewSqliteDb : String → Except GoError RosettaDB
  RunServices : List Service → Option GoError
  nodeReady : Bool
  exitSignal : Bool
  watcherRuns : Bool

/-- An execution of a command function: its steps, and the exit status when the
process was terminated from inside it (none when the function returned). -/
structure Run where
  trace : List Event
  exit : Option Nat

/-- The function getDatadir: the steps, and either the exit status or the absolute datadir. -/
def getDatadir (env : RunEnv) : List Event × Except Nat String :=
  let t0 := [Event.exitOnMissingConfig "datadir"]
  match env.exitOnMissingConfig "datadir" with
  | some code => (t0 ++ [.Exit code], .error code)
  | none =>
  let t1 := t0 ++ [Event.Abs (env.GetString "datadir")]
  match env.Abs (env.GetString "datadir") with
  | .error _ => (t1 ++ [.Crit "Can't resolve datadir path", .Exit 1], .error 1)
  | .ok absDatadir =>
  let t2 := t1 ++ [Event.IsDirectory absDatadir]
  match env.IsDirectory absDatadir with
  | .error _ => (t2 ++ [.Crit "Can't access datadir", .Exit 1], .error 1)
  | .ok false => (t2 ++ [.Crit "Datadir is not a directory", .Exit 1], .error 1)
  | .ok true => (t2, .ok absDatadir)

/-- The function runRunCmd. -/
def runRunCmd (env : RunEnv) : Run :=
  match getDatadir env with
  | (t0, .error code) => ⟨t0, some code⟩
  | (t0, .ok datadir) =>
  let gethDataDir := env.Join datadir "celo"
  let sqlitePath := env.Join datadir "rosetta.db"
  let t1 := t0 ++ [Event.exitOnMissingConfig "geth"]
  match env.exitOnMissingConfig "geth" with
  | some code => ⟨t1 ++ [.Exit code], some code⟩
  | none =>
  let t2 := t1 ++ [Event.exitOnMissingConfig "genesis"]
  match env.exitOnMissingConfig "genesis" with
  | some code => ⟨t2 ++ [.Exit code], some code⟩
  | none =>
  let gethBinary := env.GetString "geth"
  let genesisPath := env.GetString "genesis"
  let gethSrv := Service.GethService gethBinary gethDataDir genesisPath env.staticNodes
  let t3 := t2 ++ [Event.NewGethService gethBinary gethDataDir genesisPath env.staticNodes,
    Event.Setup (env.Setup gethSrv)]
  match env.Setup gethSrv with
  | some _ => ⟨t3 ++ [.LogError "Error on geth setup", .Exit 1], some 1⟩
  | none =>
  let chainParams := env.ChainParameters gethSrv
  let nodeUri := env.IpcFilePath gethSrv
  let t4 := t3 ++ [Event.ChainParameters, .LogInfo "Detected Chain Parameters",
    .IpcFilePath, .LogDebug "celo nodes ipc file",
    .NewSqliteDb sqlitePath (exceptErr (env.NewSqliteDb sqlitePath))]
  match env.NewSqliteDb sqlitePath with
  | .error _ => ⟨t4 ++ [.LogError "Error opening CeloStore", .Exit 1], some 1⟩
  | .ok celoStore =>
  let delayedServices := Service.WithDelay
    (Service.LazyService "rosetta" (rosettaServiceFactory chainParams nodeUri celoStore))
    (5 * Second)
  let ready := if env.nodeReady then [Event.NodeReady] else []
  let watcher :=
    if env.exitSignal then
      Event.ExitSignal :: (if env.watcherRuns then [Event.stopServices .signalWatcher] else [])
    else []
  let t5 := t4 ++ [Event.WithCancel, .WatchForExitSignals,
    .RunServices [gethSrv, delayedServices]] ++ ready ++ watcher ++
    [Event.RunServicesReturned (env.RunServices [gethSrv, delayedServices])]
  match env.RunServices [gethSrv, delayedServices] with
  | some _ => ⟨t5 ++ [.LogError "Error running services", .Exit 1], some 1⟩
  | none => ⟨t5 ++ [.stopServices .deferred], none⟩

/-- Whether the step belongs to the checks that precede the construction of the
node manager, or is a termination of the process. -/
def Event.isPreamble : Event → Bool
  | .exitOnMissingConfig _ => true
  | .Abs _ => true
  | .IsDirectory _ => true
  | .Crit _ => true
  | .Exit _ => true
  | _ => false

/-- Whether the step reads one of the node manager's two discovered values. -/
def Event.isRead : Event → Bool
  | .ChainParameters => true
  | .IpcFilePath => true
  | _ => false

/-- Whether the step is a call of the cancel function stopServices. -/
def Event.isStop : Event → Bool
  | .stopServices _ => true
  | _ => false

/-- Whether the step is the installation of the signal watcher. -/
def Event.isWatch : Event → Bool
  | .WatchForExitSignals => true
  | _ => false

/-- The steps of a trace that come before the signal watcher is installed (all
of them when it never is). -/
def beforeWatcher (t : List Event) : List Event :=
  t.takeWhile (fun e => !e.isWatch)

/-- The number of calls of stopServices in a trace. -/
def stopCount (t : List Event) : Nat :=
  (t.filter Event.isStop).length

/-- The number of calls of stopServices by one caller in a trace. -/
def stopCountBy (c : Caller) : List Event → Nat
  | [] => 0
  | .stopServices b :: t => (if b = c then 1 else 0) + stopCountBy c t
  | _ :: t => stopCountBy c t

/-- Modelled from the spec: the node manager's lifecycle states; the geth service
package that implements the manager is not among the source files. -/
inductive NodeState where
  | NotStarted
  | Starting
  | Ready
  | Stopping
  | Stopped
  | Failed
deriving DecidableEq, Repr

/-- Modelled from the spec: the node manager's state machine along the steps of
runRunCmd; the geth service package is not among the source files. A
successful Setup takes NotStarted to Starting and a failed one to Failed; the
manager run by RunServices goes from Starting to Ready when the node reports
readiness; RunServices returns only after the process has been reaped, which
leaves a manager that was Ready in Stopped and one that never got ready in
Failed. -/
def NodeState.after : NodeState → Event → NodeState
  | .NotStarted, .Setup none => .Starting
  | .NotStarted, .Setup (some _) => .Failed
  | .Starting, .NodeReady => .Ready
  | .Ready, .RunServicesReturned _ => .Stopped
  | .Starting, .RunServicesReturned _ => .Failed
  | st, _ => st

/-- Each step of a trace with the node manager's state in which it happens. -/
def annotate : NodeState → List Event → List (NodeState × Event)
  | _, [] => []
  | st, e :: t => (st, e) :: annotate (NodeState.after st e) t

/-- The reads of the node manager's discovered values in a trace, in order, each
with the state of the node manager in which it happens. -/
def reads (t : List Event) : List (NodeState × Event) :=
  (annotate .NotStarted t).filter (fun p => p.2.isRead)

/-! ## The service combinators on a clock -/

/-- When the node and the top-level scope do what is outside this program's
control, in nanoseconds: readyAfter is how long after being spawned the node
exposes its IPC endpoint (none: never), cancelAt is when the top-level scope
is cancelled (none: not cancelled). -/
structure Timing where
  readyAfter : Option Nat
  cancelAt : Option Nat

/-- Whether the scope has been cancelled by time t. -/
def Timing.cancelledBy (w : Timing) (t : Nat) : Bool :=
  match w.cancelAt with
  | some c => decide (c ≤ t)
  | none => false

/-- The timed happenings the ordering claims speak of. -/
inductive Tick where
  | NodeSpawned
  | NodeReady
  | FactoryInvoked (name : String) (factory : ServieFactory)
deriving DecidableEq, Repr

mutual
/-- Modelled from the spec: what running a service from time t on makes happen
and when; the service package (Group, LazyService, WithDelay) and the geth
service package are not among the source files. The node manager spawns the
process when run and is Ready once the endpoint appears; a lazy service
invokes its factory first thing when run; a delayed service waits its delay,
or until the scope is cancelled, and only then runs the inner service; a group
starts every member at once. -/
def Service.run (w : Timing) : Service → Nat → List (Nat × Tick)
  | .GethService _ _ _ _, t =>
    (t, Tick.NodeSpawned) ::
      (match w.readyAfter with
       | some d => if w.cancelledBy (t + d) then [] else [(t + d, Tick.NodeReady)]
       | none => [])
  | .RosettaServer _ _ _ _, _ => []
  | .MonitorService _ _, _ => []
  | .Group members, t => Service.runAll w members t
  | .LazyService name factory, t => [(t, Tick.FactoryInvoked name factory)]
  | .WithDelay inner delay, t => if w.cancelledBy (t + delay) then [] else Service.run w inner (t + delay)
/-- Modelled from the spec: every member of a group is started at the same time. -/
def Service.runAll (w : Timing) : List Service → Nat → List (Nat × Tick)
  | [], _ => []
  | s :: rest, t => Service.run w s t ++ Service.runAll w rest t
end

/-- Modelled from the spec: RunServices builds one top-level group from the given
services and runs it; the service package is not among the source files. -/
def RunServices (w : Timing) (services : List Service) (t : Nat) : List (Nat × Tick) :=
  Service.run w (Service.Group services) t

/-- In a timeline, every factory invocation comes strictly after a moment at
which the node is Ready. -/
def readyBeforeFactory (tl : List (Nat × Tick)) : Prop :=
  ∀ tf name factory, (tf, Tick.FactoryInvoked name factory) ∈ tl →
    ∃ tr, (tr, Tick.NodeReady) ∈ tl ∧ tr < tf

/-! ## A concrete node, for evaluating the endpoint -/

/-- A node whose state counts the calls it has answered: the latest header number
grows with every call, so reads at different times would see different blocks. -/
def sampleEth : EthClient Nat where
  HeaderByNumber := fun st _ number =>
    (.ok { Number := number.getD (100 + st), Hash := "0xb10c" }, st + 1)
  BalanceAt := fun st _ account _ => (.ok (account.val + 5), st + 1)
  GetRegistry := fun st => (.ok { handle := 0xce10 }, st + 1)
  GetAddressFor := fun st _ _ id => (.ok { val := id.val + 1 }, st + 1)
  NewLockedGold := fun st address => (.ok { handle := address.val }, st + 1)
  GetAccountTotalLockedGold := fun st _ _ account => (.ok (2 * account.val), st + 1)

/-- Sample values for the declarations outside the source files. -/
def sampleDeps : ApiDeps (Nat × String) where
  ValidateNetworkId := fun n cp =>
    if n.Network = toString cp.ChainId then none else some (.errorString "network mismatch")
  BuildErrorResponse := fun code err => (code, err.Error)
  HeaderToBlockIdentifier := fun h => { Index := h.Number, Hash := h.Hash }
  HexToAddress := fun str => { val := str.length }
  CeloGold := { Symbol := "cGLD", Decimals := 18 }
  LockedGoldRegistryId := { val := 7 }

def sampleService : AccountApiService Nat :=
  NewAccountApiService { Eth := sampleEth } { ChainId := 42220, EpochSize := 17280 }

def sampleRequest : AccountBalanceRequest :=
  { NetworkIdentifier := { Blockchain := "celo", Network := "42220" }
    AccountIdentifier := { Address := "0xabcd", SubAccount := { SubAccount := "sub" } } }

def sampleResponse : AccountBalanceResponse :=
  { BlockIdentifier := { Index := 100, Hash := "0xb10c" }
    Balances := [
      { AccountIdentifier := { Address := "0xabcd", SubAccount := { SubAccount := "sub" } }
        Amounts := [{ Value := "11", Currency := { Symbol := "cGLD", Decimals := 18 } }] },
      { AccountIdentifier := { Address := "0xabcd", SubAccount := { SubAccount := "LockedGold" } }
        Amounts := [{ Value := "12", Currency := { Symbol := "cGLD", Decimals := 18 } }] }] }

/-! ## Concrete surroundings, for evaluating the run command -/

/-- Surroundings in which the configuration and the datadir are in order, the
node gets ready and the signal watcher gets to run; the answers of Setup,
NewSqliteDb and RunServices and the arrival of a termination signal are chosen
by the arguments. -/
def sampleRunEnv (setupRes : Option GoError) (dbOk : Bool) (runRes : Option GoError)
    (signal : Bool) : RunEnv where
  exitOnMissingConfig := fun _ => none
  GetString := fun key => "/cfg/" ++ key
  staticNodes := ["enode://a@10.0.0.1:30303"]
  Abs := fun path => .ok path
  IsDirectory := fun _ => .ok true
  Join := fun a b => a ++ "/" ++ b
  Setup := fun _ => setupRes
  ChainParameters := fun _ => { ChainId := 42220, EpochSize := 17280 }
  IpcFilePath := fun _ => "/cfg/datadir/celo/geth.ipc"
  NewSqliteDb := fun _ =>
    if dbOk then .ok { handle := 1 } else .error (.errorString "unable to open database file")
  RunServices := fun _ => runRes
  nodeReady := true
  exitSignal := signal
  watcherRuns := true

/-- The node manager built by runRunCmd in the sample surroundings. -/
def sampleGethSrv : Service :=
  .GethService "/cfg/geth" "/cfg/datadir/celo" "/cfg/genesis" ["enode://a@10.0.0.1:30303"]

/-- The delayed rosetta service built by runRunCmd in the sample surroundings. -/
def sampleDelayed : Service :=
  .WithDelay (.LazyService "rosetta"
    (rosettaServiceFactory { ChainId := 42220, EpochSize := 17280 } "/cfg/datadir/celo/geth.ipc"
      { handle := 1 })) (5 * Second)

def sampleConfig : RosettaServerConfig :=
  { Port := 8080, Interface := "", RequestTimeout := 25 * Second }

/-- A Dial that fails on the empty endpoint and connects otherwise. -/
def sampleDial (nodeUri : String) : Except GoError Conn :=
  if nodeUri = "" then .error (.errorString "dial unix: missing address") else .ok { id := 3 }

/-! ## Theorems: AccountBalance -/

/-- C1: AccountBalance always returns a nil Go error; the executed steps are an
initial segment 1..n of the seven steps in source order, answered by the
client one after the other, all but possibly the last succeeding; the result
is a response exactly when all seven steps ran and succeeded, and otherwise it
is BuildErrorResponse k e where step k is the last executed step and e its
error; when network validation fails no step uses the node. -/
theorem AccountBalance_first_failure {ε σ : Type} (D : ApiDeps ε) (s : AccountApiService σ)
    (node : σ) (ctx : Context) (req : AccountBalanceRequest) :
    (AccountBalance D s node ctx req).err = none ∧
    validTrace D s.celoClient.Eth (AccountBalance D s node ctx req).calls node
      (AccountBalance D s node ctx req).node ∧
    (AccountBalance D s node ctx req).calls.map Call.step
      = List.range' 1 (AccountBalance D s node ctx req).calls.length ∧
    (∀ c ∈ (AccountBalance D s node ctx req).calls.dropLast, c.err = none) ∧
    ((∃ r, (AccountBalance D s node ctx req).ret = .response r ∧
        (AccountBalance D s node ctx req).calls.length = 7 ∧
        ∀ c ∈ (AccountBalance D s node ctx req).calls, c.err = none) ∨
     (∃ k e, 1 ≤ k ∧ k ≤ 7 ∧ (AccountBalance D s node ctx req).calls.length = k ∧
        (AccountBalance D s node ctx req).calls.getLast?.bind Call.err = some e ∧
        (AccountBalance D s node ctx req).ret = .errorResponse (D.BuildErrorResponse k e))) ∧
    (D.ValidateNetworkId req.NetworkIdentifier s.chainParams ≠ none →
      ∀ c ∈ (AccountBalance D s node ctx req).calls, c.usesNode = false) := by
  simp only [AccountBalance]
  repeat' split
  all_goals simp_all [validTrace, Call.answeredBy, Call.step, Call.err, Call.usesNode, exceptErr,
    List.range']
  all_goals exact ⟨_, by decide, by decide, rfl, rfl⟩

/-- A response is returned only by the last return statement: every step
succeeded, each in the node state the previous one left, and the execution is
the one spelled out here. -/
theorem AccountBalance_response_inv {ε σ : Type} (D : ApiDeps ε) (s : AccountApiService σ)
    (node : σ) (ctx : Context) (req : AccountBalanceRequest) (r : AccountBalanceResponse)
    (hr : (AccountBalance D s node ctx req).ret = .response r) :
    ∃ (h : Header) (node2 : σ) (gold : Int) (node3 : σ) (registry : Registry) (node4 : σ)
      (lockedGoldAddr : Address) (node5 : σ) (lockedGold : LockedGold) (node6 : σ)
      (locked : Int) (node7 : σ),
      D.ValidateNetworkId req.NetworkIdentifier s.chainParams = none ∧
      s.celoClient.Eth.HeaderByNumber node ctx none = (.ok h, node2) ∧
      s.celoClient.Eth.BalanceAt node2 ctx (D.HexToAddress req.AccountIdentifier.Address)
        (some h.Number) = (.ok gold, node3) ∧
      s.celoClient.Eth.GetRegistry node3 = (.ok registry, node4) ∧
      s.celoClient.Eth.GetAddressFor node4 registry { BlockNumber := some h.Number, Context := ctx }
        D.LockedGoldRegistryId = (.ok lockedGoldAddr, node5) ∧
      s.celoClient.Eth.NewLockedGold node5 lockedGoldAddr = (.ok lockedGold, node6) ∧
      s.celoClient.Eth.GetAccountTotalLockedGold node6 lockedGold
        { BlockNumber := some h.Number, Context := ctx }
        (D.HexToAddress req.AccountIdentifier.Address) = (.ok locked, node7) ∧
      r = { BlockIdentifier := D.HeaderToBlockIdentifier h
            Balances := [
              { AccountIdentifier := req.AccountIdentifier
                Amounts := [{ Value := bigIntString gold, Currency := D.CeloGold }] },
              { AccountIdentifier :=
                  { Address := req.AccountIdentifier.Address
                    SubAccount := { SubAccount := "LockedGold" } }
                Amounts := [{ Value := bigIntString locked, Currency := D.CeloGold }] }] } ∧
      (AccountBalance D s node ctx req).calls =
        [ .ValidateNetworkId req.NetworkIdentifier s.chainParams none,
          .HeaderByNumber ctx none (.ok h),
          .BalanceAt ctx (D.HexToAddress req.AccountIdentifier.Address) (some h.Number) (.ok gold),
          .GetRegistry (.ok registry),
          .GetAddressFor registry { BlockNumber := some h.Number, Context := ctx }
            D.LockedGoldRegistryId (.ok lockedGoldAddr),
          .NewLockedGold lockedGoldAddr (.ok lockedGold),
          .GetAccountTotalLockedGold lockedGold { BlockNumber := some h.Number, Context := ctx }
            (D.HexToAddress req.AccountIdentifier.Address) (.ok locked) ] ∧
      (AccountBalance D s node ctx req).node = node7 := by
  revert hr
  simp only [AccountBalance]
  repeat' split
  all_goals intro hr
  all_goals cases hr
  rename_i _ h1 _ h n2 h2 _ gold n3 h3 _ registry n4 h4 _ lockedGoldAddr n5 h5 _ lockedGold n6 h6
    _ locked n7 h7
  exact ⟨h, n2, gold, n3, registry, n4, lockedGoldAddr, n5, lockedGold, n6, locked, n7,
    h1, h2, h3, h4, h5, h6, h7, rfl, by simp [h1, h2, h3, h4, h5, h6, h7], rfl⟩

/-- C9: when AccountBalance answers with a response r, the client was asked for
the latest header once (block argument nil) and answered h; it was then asked,
each time in the node state the previous call left, for the gold balance, the
LockedGold registry address and the total locked gold, each at block number
h.Number, and answered each of them (GetRegistry and NewLockedGold, which
carry no block, in between); these seven steps are all the steps executed,
and r.BlockIdentifier is HeaderToBlockIdentifier h for that same h. -/
theorem AccountBalance_single_block {ε σ : Type} (D : ApiDeps ε) (s : AccountApiService σ)
    (node : σ) (ctx : Context) (req : AccountBalanceRequest) (r : AccountBalanceResponse)
    (hr : (AccountBalance D s node ctx req).ret = .response r) :
    ∃ (h : Header) (node2 : σ) (gold : Int) (node3 : σ) (registry : Registry) (node4 : σ)
      (lockedGoldAddr : Address) (node5 : σ) (lockedGold : LockedGold) (node6 : σ)
      (locked : Int) (node7 : σ),
      s.celoClient.Eth.HeaderByNumber node ctx none = (.ok h, node2) ∧
      s.celoClient.Eth.BalanceAt node2 ctx (D.HexToAddress req.AccountIdentifier.Address)
        (some h.Number) = (.ok gold, node3) ∧
      s.celoClient.Eth.GetRegistry node3 = (.ok registry, node4) ∧
      s.celoClient.Eth.GetAddressFor node4 registry
        { BlockNumber := some h.Number, Context := ctx } D.LockedGoldRegistryId
          = (.ok lockedGoldAddr, node5) ∧
      s.celoClient.Eth.NewLockedGold node5 lockedGoldAddr = (.ok lockedGold, node6) ∧
      s.celoClient.Eth.GetAccountTotalLockedGold node6 lockedGold
        { BlockNumber := some h.Number, Context := ctx }
        (D.HexToAddress req.AccountIdentifier.Address) = (.ok locked, node7) ∧
      (AccountBalance D s node ctx req).calls =
        [ .ValidateNetworkId req.NetworkIdentifier s.chainParams none,
          .HeaderByNumber ctx none (.ok h),
          .BalanceAt ctx (D.HexToAddress req.AccountIdentifier.Address)
            (some h.Number) (.ok gold),
          .GetRegistry (.ok registry),
          .GetAddressFor registry { BlockNumber := some h.Number, Context := ctx }
            D.LockedGoldRegistryId (.ok lockedGoldAddr),
          .NewLockedGold lockedGoldAddr (.ok lockedGold),
          .GetAccountTotalLockedGold lockedGold { BlockNumber := some h.Number, Context := ctx }
            (D.HexToAddress req.AccountIdentifier.Address) (.ok locked) ] ∧
      (AccountBalance D s node ctx req).calls.filterMap Call.block =
        [none, some h.Number, some h.Number, some h.Number] ∧
      (AccountBalance D s node ctx req).node = node7 ∧
      r.BlockIdentifier = D.HeaderToBlockIdentifier h := by
  obtain ⟨h, n2, gold, n3, registry, n4, lockedGoldAddr, n5, lockedGold, n6, locked, n7,
    _, h2, h3, h4, h5, h6, h7, hresp, hcalls, hnode⟩ :=
      AccountBalance_response_inv D s node ctx req r hr
  refine ⟨h, n2, gold, n3, registry, n4, lockedGoldAddr, n5, lockedGold, n6, locked, n7,
    h2, h3, h4, h5, h6, h7, hcalls, ?_, hnode, ?_⟩
  · rw [hcalls]; rfl
  · rw [hresp]

/-- C9 witness: the sample node answers the sample request with a response. -/
theorem AccountBalance_single_block_witness :
    (AccountBalance sampleDeps sampleService 0 ⟨1⟩ sampleRequest).ret = .response sampleResponse ∧
    ∃ (h : Header) (node2 : Nat) (gold : Int) (node3 : Nat) (registry : Registry) (node4 : Nat)
      (lockedGoldAddr : Address) (node5 : Nat) (lockedGold : LockedGold) (node6 : Nat)
      (locked : Int) (node7 : Nat),
      sampleService.celoClient.Eth.HeaderByNumber 0 ⟨1⟩ none = (.ok h, node2) ∧
      sampleService.celoClient.Eth.BalanceAt node2 ⟨1⟩ (sampleDeps.HexToAddress sampleRequest.AccountIdentifier.Address)
        (some h.Number) = (.ok gold, node3) ∧
      sampleService.celoClient.Eth.GetRegistry node3 = (.ok registry, node4) ∧
      sampleService.celoClient.Eth.GetAddressFor node4 registry
        { BlockNumber := some h.Number, Context := ⟨1⟩ } sampleDeps.LockedGoldRegistryId
          = (.ok lockedGoldAddr, node5) ∧
      sampleService.celoClient.Eth.NewLockedGold node5 lockedGoldAddr = (.ok lockedGold, node6) ∧
      sampleService.celoClient.Eth.GetAccountTotalLockedGold node6 lockedGold
        { BlockNumber := some h.Number, Context := ⟨1⟩ }
        (sampleDeps.HexToAddress sampleRequest.AccountIdentifier.Address) = (.ok locked, node7) ∧
      (AccountBalance sampleDeps sampleService 0 ⟨1⟩ sampleRequest).calls =
        [ .ValidateNetworkId sampleRequest.NetworkIdentifier sampleService.chainParams none,
          .HeaderByNumber ⟨1⟩ none (.ok h),
          .BalanceAt ⟨1⟩ (sampleDeps.HexToAddress sampleRequest.AccountIdentifier.Address)
            (some h.Number) (.ok gold),
          .GetRegistry (.ok registry),
          .GetAddressFor registry { BlockNumber := some h.Number, Context := ⟨1⟩ }
            sampleDeps.LockedGoldRegistryId (.ok lockedGoldAddr),
          .NewLockedGold lockedGoldAddr (.ok lockedGold),
          .GetAccountTotalLockedGold lockedGold { BlockNumber := some h.Number, Context := ⟨1⟩ }
            (sampleDeps.HexToAddress sampleRequest.AccountIdentifier.Address) (.ok locked) ] ∧
      (AccountBalance sampleDeps sampleService 0 ⟨1⟩ sampleRequest).calls.filterMap Call.block =
        [none, some h.Number, some h.Number, some h.Number] ∧
      (AccountBalance sampleDeps sampleService 0 ⟨1⟩ sampleRequest).node = node7 ∧
      sampleResponse.BlockIdentifier = sampleDeps.HeaderToBlockIdentifier h :=
  ⟨rfl, AccountBalance_single_block sampleDeps sampleService 0 ⟨1⟩ sampleRequest
    sampleResponse rfl⟩

/-- C10: when AccountBalance answers request req with a response r, the client
answered the latest header h, then gold for BalanceAt of HexToAddress
req.AccountIdentifier.Address at h.Number, and, through the registry and the
LockedGold contract, locked for GetAccountTotalLockedGold of that same
address at h.Number, each call made in the node state the previous one left;
and r holds exactly two balances in this order: the first for
req.AccountIdentifier verbatim with the single amount bigIntString gold in
CeloGold, the second for the same address string with sub-account
"LockedGold" and the single amount bigIntString locked in CeloGold. -/
theorem AccountBalance_balances {ε σ : Type} (D : ApiDeps ε) (s : AccountApiService σ)
    (node : σ) (ctx : Context) (req : AccountBalanceRequest) (r : AccountBalanceResponse)
    (hr : (AccountBalance D s node ctx req).ret = .response r) :
    ∃ (h : Header) (node2 : σ) (gold : Int) (node3 : σ) (registry : Registry) (node4 : σ)
      (lockedGoldAddr : Address) (node5 : σ) (lockedGold : LockedGold) (node6 : σ)
      (locked : Int) (node7 : σ),
      s.celoClient.Eth.HeaderByNumber node ctx none = (.ok h, node2) ∧
      s.celoClient.Eth.BalanceAt node2 ctx (D.HexToAddress req.AccountIdentifier.Address)
        (some h.Number) = (.ok gold, node3) ∧
      s.celoClient.Eth.GetRegistry node3 = (.ok registry, node4) ∧
      s.celoClient.Eth.GetAddressFor node4 registry
        { BlockNumber := some h.Number, Context := ctx } D.LockedGoldRegistryId
          = (.ok lockedGoldAddr, node5) ∧
      s.celoClient.Eth.NewLockedGold node5 lockedGoldAddr = (.ok lockedGold, node6) ∧
      s.celoClient.Eth.GetAccountTotalLockedGold node6 lockedGold
        { BlockNumber := some h.Number, Context := ctx }
        (D.HexToAddress req.AccountIdentifier.Address) = (.ok locked, node7) ∧
      r.Balances =
        [ { AccountIdentifier := req.AccountIdentifier
            Amounts := [{ Value := bigIntString gold, Currency := D.CeloGold }] },
          { AccountIdentifier :=
              { Address := req.AccountIdentifier.Address
                SubAccount := { SubAccount := "LockedGold" } }
            Amounts := [{ Value := bigIntString locked, Currency := D.CeloGold }] } ] := by
  obtain ⟨h, n2, gold, n3, registry, n4, lockedGoldAddr, n5, lockedGold, n6, locked, n7,
    _, h2, h3, h4, h5, h6, h7, hresp, _, _⟩ :=
      AccountBalance_response_inv D s node ctx req r hr
  refine ⟨h, n2, gold, n3, registry, n4, lockedGoldAddr, n5, lockedGold, n6, locked, n7,
    h2, h3, h4, h5, h6, h7, ?_⟩
  rw [hresp]

/-- C10 witness: the sample node answers the sample request with the two sample balances. -/
theorem AccountBalance_balances_witness :
    (AccountBalance sampleDeps sampleService 0 ⟨1⟩ sampleRequest).ret = .response sampleResponse ∧
    ∃ (h : Header) (node2 : Nat) (gold : Int) (node3 : Nat) (registry : Registry) (node4 : Nat)
      (lockedGoldAddr : Address) (node5 : Nat) (lockedGold : LockedGold) (node6 : Nat)
      (locked : Int) (node7 : Nat),
      sampleService.celoClient.Eth.HeaderByNumber 0 ⟨1⟩ none = (.ok h, node2) ∧
      sampleService.celoClient.Eth.BalanceAt node2 ⟨1⟩ (sampleDeps.HexToAddress sampleRequest.AccountIdentifier.Address)
        (some h.Number) = (.ok gold, node3) ∧
      sampleService.celoClient.Eth.GetRegistry node3 = (.ok registry, node4) ∧
      sampleService.celoClient.Eth.GetAddressFor node4 registry
        { BlockNumber := some h.Number, Context := ⟨1⟩ } sampleDeps.LockedGoldRegistryId
          = (.ok lockedGoldAddr, node5) ∧
      sampleService.celoClient.Eth.NewLockedGold node5 lockedGoldAddr = (.ok lockedGold, node6) ∧
      sampleService.celoClient.Eth.GetAccountTotalLockedGold node6 lockedGold
        { BlockNumber := some h.Number, Context := ⟨1⟩ }
        (sampleDeps.HexToAddress sampleRequest.AccountIdentifier.Address) = (.ok locked, node7) ∧
      sampleResponse.Balances =
        [ { AccountIdentifier := sampleRequest.AccountIdentifier
            Amounts := [{ Value := bigIntString gold, Currency := sampleDeps.CeloGold }] },
          { AccountIdentifier :=
              { Address := sampleRequest.AccountIdentifier.Address
                SubAccount := { SubAccount := "LockedGold" } }
            Amounts := [{ Value := bigIntString locked, Currency := sampleDeps.CeloGold }] } ] :=
  ⟨rfl, AccountBalance_balances sampleDeps sampleService 0 ⟨1⟩ sampleRequest sampleResponse rfl⟩

/-! ## Theorems: the rosetta service factory -/

/-- C5: when Dial fails with e, the factory returns a nil service and an error
that unwraps to e and whose message is "Error on client connection to geth: "
followed by the message of e; Dial with the captured nodeUri is all it did, so
neither the rosetta server nor the monitor service is constructed. -/
theorem rosettaServiceFactory_dial_error (Dial : String → Except GoError Conn)
    (cfg : RosettaServerConfig) (chainParams : ChainParameters) (nodeUri : String)
    (db : RosettaDB) (e : GoError) (hDial : Dial nodeUri = .error e) :
    ((rosettaServiceFactory chainParams nodeUri db).invoke Dial cfg).service = none ∧
    (∃ err, ((rosettaServiceFactory chainParams nodeUri db).invoke Dial cfg).err = some err ∧
      err.Unwrap = some e ∧
      err.Error = "Error on client connection to geth: " ++ e.Error) ∧
    ((rosettaServiceFactory chainParams nodeUri db).invoke Dial cfg).events = [.Dial nodeUri] := by
  simp [rosettaServiceFactory, ServieFactory.invoke, hDial, Errorf_w, GoError.Unwrap,
    GoError.Error]

/-- C5 witness: dialing the empty endpoint fails in the sample surroundings. -/
theorem rosettaServiceFactory_dial_error_witness :
    sampleDial "" = .error (.errorString "dial unix: missing address") ∧
    ((rosettaServiceFactory ⟨42220, 17280⟩ "" ⟨1⟩).invoke sampleDial sampleConfig).service = none ∧
    (∃ err, ((rosettaServiceFactory ⟨42220, 17280⟩ "" ⟨1⟩).invoke sampleDial sampleConfig).err
        = some err ∧
      err.Unwrap = some (.errorString "dial unix: missing address") ∧
      err.Error = "Error on client connection to geth: " ++
        (GoError.errorString "dial unix: missing address").Error) ∧
    ((rosettaServiceFactory ⟨42220, 17280⟩ "" ⟨1⟩).invoke sampleDial sampleConfig).events
      = [.Dial ""] :=
  ⟨rfl, rosettaServiceFactory_dial_error sampleDial sampleConfig ⟨42220, 17280⟩ "" ⟨1⟩
    (.errorString "dial unix: missing address") rfl⟩

/-- C6: when Dial succeeds with connection cc, the factory dials exactly once,
with the captured nodeUri, returns a nil error, and returns the group of the
rosetta server built from (cc, the RPC configuration, chainParams, db) and the
monitor service built from (cc, db), in that order. -/
theorem rosettaServiceFactory_dial_ok (Dial : String → Except GoError Conn)
    (cfg : RosettaServerConfig) (chainParams : ChainParameters) (nodeUri : String)
    (db : RosettaDB) (cc : Conn) (hDial : Dial nodeUri = .ok cc) :
    ((rosettaServiceFactory chainParams nodeUri db).invoke Dial cfg).err = none ∧
    ((rosettaServiceFactory chainParams nodeUri db).invoke Dial cfg).service =
      some (.Group [.RosettaServer cc cfg chainParams db, .MonitorService cc db]) ∧
    ((rosettaServiceFactory chainParams nodeUri db).invoke Dial cfg).events =
      [.Dial nodeUri, .NewRosettaServer cc cfg chainParams db, .NewMonitorService cc db] := by
  simp [rosettaServiceFactory, ServieFactory.invoke, hDial]

/-- C6 witness: dialing the node's IPC endpoint succeeds in the sample surroundings. -/
theorem rosettaServiceFactory_dial_ok_witness :
    sampleDial "/cfg/datadir/celo/geth.ipc" = .ok ⟨3⟩ ∧
    ((rosettaServiceFactory ⟨42220, 17280⟩ "/cfg/datadir/celo/geth.ipc" ⟨1⟩).invoke sampleDial
      sampleConfig).err = none ∧
    ((rosettaServiceFactory ⟨42220, 17280⟩ "/cfg/datadir/celo/geth.ipc" ⟨1⟩).invoke sampleDial
      sampleConfig).service =
      some (.Group [.RosettaServer ⟨3⟩ sampleConfig ⟨42220, 17280⟩ ⟨1⟩, .MonitorService ⟨3⟩ ⟨1⟩]) ∧
    ((rosettaServiceFactory ⟨42220, 17280⟩ "/cfg/datadir/celo/geth.ipc" ⟨1⟩).invoke sampleDial
      sampleConfig).events =
      [.Dial "/cfg/datadir/celo/geth.ipc", .NewRosettaServer ⟨3⟩ sampleConfig ⟨42220, 17280⟩ ⟨1⟩,
        .NewMonitorService ⟨3⟩ ⟨1⟩] :=
  ⟨rfl, rosettaServiceFactory_dial_ok sampleDial sampleConfig ⟨42220, 17280⟩
    "/cfg/datadir/celo/geth.ipc" ⟨1⟩ ⟨3⟩ rfl⟩

/-! ## Theorems: the run command -/

/-- The steps of getDatadir are configuration and filesystem checks only. -/
theorem getDatadir_preamble (env : RunEnv) :
    ∀ ev ∈ (getDatadir env).1, ev.isPreamble = true := by
  simp only [getDatadir]
  repeat' split
  all_goals simp [Event.isPreamble]

/-- None of the steps of getDatadir is a step of the node manager, the store,
the service runner or the signal handling. -/
theorem getDatadir_trace_facts (env : RunEnv) :
    (∀ res, Event.Setup res ∉ (getDatadir env).1) ∧
    (∀ path res, Event.NewSqliteDb path res ∉ (getDatadir env).1) ∧
    (∀ res, Event.RunServicesReturned res ∉ (getDatadir env).1) ∧
    (∀ services, Event.RunServices services ∉ (getDatadir env).1) ∧
    Event.ChainParameters ∉ (getDatadir env).1 ∧
    Event.IpcFilePath ∉ (getDatadir env).1 ∧
    Event.ExitSignal ∉ (getDatadir env).1 ∧
    (∀ caller, Event.stopServices caller ∉ (getDatadir env).1) := by
  have hpre := getDatadir_preamble env
  refine ⟨?_, ?_, ?_, ?_, ?_, ?_, ?_, ?_⟩
  all_goals intros
  all_goals intro hm
  all_goals simpa [Event.isPreamble] using hpre _ hm

/-- C4: if Setup, NewSqliteDb or RunServices returns a non-nil error, runRunCmd
terminates the process with status 1; and if it is Setup or NewSqliteDb that
fails, RunServices is never called. -/
theorem runRunCmd_exit_on_error (env : RunEnv)
    (h : (∃ e, Event.Setup (some e) ∈ (runRunCmd env).trace) ∨
         (∃ path e, Event.NewSqliteDb path (some e) ∈ (runRunCmd env).trace) ∨
         (∃ e, Event.RunServicesReturned (some e) ∈ (runRunCmd env).trace)) :
    (runRunCmd env).exit = some 1 ∧
    (((∃ e, Event.Setup (some e) ∈ (runRunCmd env).trace) ∨
      (∃ path e, Event.NewSqliteDb path (some e) ∈ (runRunCmd env).trace)) →
      ∀ services, Event.RunServices services ∉ (runRunCmd env).trace) := by
  obtain ⟨h1, h2, h3, h4, -, -, -, -⟩ := getDatadir_trace_facts env
  revert h
  simp only [runRunCmd]
  repeat' split
  all_goals simp_all [exceptErr]

/-- C4 witness: the store cannot be opened in the sample surroundings. -/
theorem runRunCmd_exit_on_error_witness :
    ((∃ e, Event.Setup (some e) ∈ (runRunCmd (sampleRunEnv none false none false)).trace) ∨
     (∃ path e, Event.NewSqliteDb path (some e)
        ∈ (runRunCmd (sampleRunEnv none false none false)).trace) ∨
     (∃ e, Event.RunServicesReturned (some e)
        ∈ (runRunCmd (sampleRunEnv none false none false)).trace)) ∧
    ((runRunCmd (sampleRunEnv none false none false)).exit = some 1 ∧
    (((∃ e, Event.Setup (some e) ∈ (runRunCmd (sampleRunEnv none false none false)).trace) ∨
      (∃ path e, Event.NewSqliteDb path (some e)
        ∈ (runRunCmd (sampleRunEnv none false none false)).trace)) →
      ∀ services, Event.RunServices services
        ∉ (runRunCmd (sampleRunEnv none false none false)).trace)) :=
  have hm : ∃ path e, Event.NewSqliteDb path (some e)
      ∈ (runRunCmd (sampleRunEnv none false none false)).trace :=
    ⟨"/cfg/datadir/rosetta.db", .errorString "unable to open database file", by
      have ht : (runRunCmd (sampleRunEnv none false none false)).trace =
          [ .exitOnMissingConfig "datadir", .Abs "/cfg/datadir", .IsDirectory "/cfg/datadir",
            .exitOnMissingConfig "geth", .exitOnMissingConfig "genesis",
            .NewGethService "/cfg/geth" "/cfg/datadir/celo" "/cfg/genesis"
              ["enode://a@10.0.0.1:30303"],
            .Setup none, .ChainParameters, .LogInfo "Detected Chain Parameters", .IpcFilePath,
            .LogDebug "celo nodes ipc file",
            .NewSqliteDb "/cfg/datadir/rosetta.db"
              (some (.errorString "unable to open database file")),
            .LogError "Error opening CeloStore", .Exit 1 ] := rfl
      rw [ht]; simp⟩
  ⟨Or.inr (Or.inl hm),
    runRunCmd_exit_on_error (sampleRunEnv none false none false) (Or.inr (Or.inl hm))⟩

/-- A preamble step leaves the node manager's state as it is. -/
theorem NodeState.after_preamble (st : NodeState) (ev : Event)
    (h : ev.isPreamble = true) : NodeState.after st ev = st := by
  cases ev <;> first
    | (simp [Event.isPreamble] at h; done)
    | (cases st <;> rfl)

/-- Preamble steps read nothing, so they can be dropped from the front of a
trace without changing the reads or the states in which they happen. -/
theorem reads_preamble_append (t0 rest : List Event)
    (h : ∀ ev ∈ t0, ev.isPreamble = true) : reads (t0 ++ rest) = reads rest := by
  unfold reads
  generalize NodeState.NotStarted = st
  induction t0 with
  | nil => rfl
  | cons e t ih =>
    have he := h e (by simp)
    have hr : e.isRead = false := by cases e <;> simp_all [Event.isPreamble, Event.isRead]
    simp only [List.cons_append, annotate, NodeState.after_preamble st e he]
    simp [List.filter_cons, hr]
    simpa using ih (fun ev hev => h ev (by simp [hev]))

/-- Preamble steps do not call stopServices. -/
theorem stopCount_preamble_append (t0 rest : List Event)
    (h : ∀ ev ∈ t0, ev.isPreamble = true) : stopCount (t0 ++ rest) = stopCount rest := by
  unfold stopCount
  induction t0 with
  | nil => rfl
  | cons e t ih =>
    have he := h e (by simp)
    have hr : e.isStop = false := by cases e <;> simp_all [Event.isPreamble, Event.isStop]
    simp only [List.cons_append, List.filter_cons, hr]
    simpa using ih (fun ev hev => h ev (by simp [hev]))

/-- Preamble steps do not call stopServices, whoever the caller. -/
theorem stopCountBy_preamble_append (c : Caller) (t0 rest : List Event)
    (h : ∀ ev ∈ t0, ev.isPreamble = true) : stopCountBy c (t0 ++ rest) = stopCountBy c rest := by
  induction t0 with
  | nil => rfl
  | cons e t ih =>
    have he := h e (by simp)
    have ih2 := ih (fun ev hev => h ev (by simp [hev]))
    cases e <;> simp_all [Event.isPreamble, stopCountBy]

/-- Preamble steps come before the installation of the signal watcher. -/
theorem beforeWatcher_preamble_append (t0 rest : List Event)
    (h : ∀ ev ∈ t0, ev.isPreamble = true) :
    beforeWatcher (t0 ++ rest) = t0 ++ beforeWatcher rest := by
  unfold beforeWatcher
  induction t0 with
  | nil => rfl
  | cons e t ih =>
    have he := h e (by simp)
    have hr : e.isWatch = false := by cases e <;> simp_all [Event.isPreamble, Event.isWatch]
    simp only [List.cons_append, List.takeWhile_cons, hr, Bool.not_false, if_true]
    rw [ih (fun ev hev => h ev (by simp [hev]))]

/-- The sample run in which Setup, the store and the services all succeed and no
termination signal arrives. -/
theorem sample_trace_clean :
    (runRunCmd (sampleRunEnv none true none false)).trace
      = [ .exitOnMissingConfig "datadir", .Abs "/cfg/datadir", .IsDirectory "/cfg/datadir",
          .exitOnMissingConfig "geth", .exitOnMissingConfig "genesis",
          .NewGethService "/cfg/geth" "/cfg/datadir/celo" "/cfg/genesis"
            ["enode://a@10.0.0.1:30303"],
          .Setup none, .ChainParameters, .LogInfo "Detected Chain Parameters", .IpcFilePath,
          .LogDebug "celo nodes ipc file", .NewSqliteDb "/cfg/datadir/rosetta.db" none,
          .WithCancel, .WatchForExitSignals, .RunServices [sampleGethSrv, sampleDelayed],
          .NodeReady, .RunServicesReturned none, .stopServices .deferred ] :=
  rfl

/-- C2 amended: in every execution of runRunCmd the chain parameters and the IPC
endpoint are read either not at all (Setup did not succeed or was not reached)
or exactly once each, the chain parameters first, both after Setup has
returned nil and before RunServices is called, that is with the node manager
in state Starting. -/
theorem runRunCmd_reads_in_Starting (env : RunEnv) :
    (Event.Setup none ∈ (runRunCmd env).trace ∧
      reads (runRunCmd env).trace =
        [(.Starting, .ChainParameters), (.Starting, .IpcFilePath)]) ∨
    (Event.Setup none ∉ (runRunCmd env).trace ∧ reads (runRunCmd env).trace = []) := by
  have hpre := getDatadir_preamble env
  obtain ⟨h1, -, -, -, -, -, -, -⟩ := getDatadir_trace_facts env
  rcases hgd : getDatadir env with ⟨t0, code | datadir⟩
  all_goals rw [hgd] at hpre h1
  all_goals simp only [runRunCmd, hgd]
  · right
    have := reads_preamble_append t0 [] hpre
    simp only [List.append_nil] at this
    exact ⟨h1 none, by rw [this]; rfl⟩
  · repeat' split
    all_goals simp only [List.append_assoc]
    all_goals rw [reads_preamble_append _ _ hpre]
    all_goals simp_all [reads, annotate, NodeState.after, Event.isRead]

/-- C2 counterexample: in the sample run where Setup, the store and the services
all succeed, the node manager does reach Ready (it is Ready when RunServices
returns), yet both discovered values are read earlier, with the node manager
in state Starting, so not every read happens in Ready. -/
theorem runRunCmd_reads_before_Ready :
    (NodeState.Ready, Event.RunServicesReturned none) ∈
      annotate .NotStarted (runRunCmd (sampleRunEnv none true none false)).trace ∧
    ¬ ∀ p ∈ reads (runRunCmd (sampleRunEnv none true none false)).trace,
        p.1 = NodeState.Ready := by
  rw [sample_trace_clean]
  constructor
  · simp [annotate, NodeState.after]
  · intro h
    have hst := h (.Starting, .ChainParameters)
      (by simp [reads, annotate, NodeState.after, Event.isRead])
    cases hst

/-- The sample run in which Setup fails for want of a genesis file. -/
theorem sample_trace_setup_fails :
    (runRunCmd (sampleRunEnv (some (.errorString "genesis file not found")) true none false)).trace
      = [ .exitOnMissingConfig "datadir", .Abs "/cfg/datadir", .IsDirectory "/cfg/datadir",
          .exitOnMissingConfig "geth", .exitOnMissingConfig "genesis",
          .NewGethService "/cfg/geth" "/cfg/datadir/celo" "/cfg/genesis"
            ["enode://a@10.0.0.1:30303"],
          .Setup (some (.errorString "genesis file not found")),
          .LogError "Error on geth setup", .Exit 1 ] :=
  rfl

/-- C3 counterexample: in the sample run where Setup fails for want of a genesis
file, RunServices is not called and returns nothing, so it does not return a
setup error to its caller. -/
theorem runRunCmd_setup_error_bypasses_RunServices :
    Event.Setup (some (.errorString "genesis file not found")) ∈
      (runRunCmd (sampleRunEnv (some (.errorString "genesis file not found")) true none
        false)).trace ∧
    ¬ ∃ res, Event.RunServicesReturned res ∈
      (runRunCmd (sampleRunEnv (some (.errorString "genesis file not found")) true none
        false)).trace := by
  rw [sample_trace_setup_fails]
  simp

/-- C3 amended: when Setup fails, runRunCmd logs the error and terminates the
process with status 1 itself; RunServices is neither called nor does it
return anything, so the node manager is never run. -/
theorem runRunCmd_setup_failure (env : RunEnv) (e : GoError)
    (h : Event.Setup (some e) ∈ (runRunCmd env).trace) :
    (runRunCmd env).exit = some 1 ∧
    (runRunCmd env).trace.getLast? = some (.Exit 1) ∧
    Event.LogError "Error on geth setup" ∈ (runRunCmd env).trace ∧
    (∀ services, Event.RunServices services ∉ (runRunCmd env).trace) ∧
    (∀ res, Event.RunServicesReturned res ∉ (runRunCmd env).trace) := by
  obtain ⟨h1, h2, h3, h4, -, -, -, -⟩ := getDatadir_trace_facts env
  rcases hgd : getDatadir env with ⟨t0, code | datadir⟩
  all_goals rw [hgd] at h1 h2 h3 h4
  all_goals revert h
  all_goals simp only [runRunCmd, hgd]
  · intro h
    exact absurd h (h1 _)
  · repeat' split
    all_goals simp_all [exceptErr]

/-- C3 witness: the sample run in which Setup fails for want of a genesis file. -/
theorem runRunCmd_setup_failure_witness :
    Event.Setup (some (.errorString "genesis file not found")) ∈
      (runRunCmd (sampleRunEnv (some (.errorString "genesis file not found")) true none
        false)).trace ∧
    ((runRunCmd (sampleRunEnv (some (.errorString "genesis file not found")) true none
        false)).exit = some 1 ∧
    (runRunCmd (sampleRunEnv (some (.errorString "genesis file not found")) true none
        false)).trace.getLast? = some (.Exit 1) ∧
    Event.LogError "Error on geth setup" ∈
      (runRunCmd (sampleRunEnv (some (.errorString "genesis file not found")) true none
        false)).trace ∧
    (∀ services, Event.RunServices services ∉
      (runRunCmd (sampleRunEnv (some (.errorString "genesis file not found")) true none
        false)).trace) ∧
    (∀ res, Event.RunServicesReturned res ∉
      (runRunCmd (sampleRunEnv (some (.errorString "genesis file not found")) true none
        false)).trace)) :=
  have hm : Event.Setup (some (.errorString "genesis file not found")) ∈
      (runRunCmd (sampleRunEnv (some (.errorString "genesis file not found")) true none
        false)).trace := by
    rw [sample_trace_setup_fails]; simp
  ⟨hm, runRunCmd_setup_failure _ _ hm⟩

/-- The sample run in which a termination signal arrives while all services are
healthy, the watcher handles it, and RunServices then returns nil. -/
theorem sample_trace_signal_clean :
    (runRunCmd (sampleRunEnv none true none true)).trace
      = [ .exitOnMissingConfig "datadir", .Abs "/cfg/datadir", .IsDirectory "/cfg/datadir",
          .exitOnMissingConfig "geth", .exitOnMissingConfig "genesis",
          .NewGethService "/cfg/geth" "/cfg/datadir/celo" "/cfg/genesis"
            ["enode://a@10.0.0.1:30303"],
          .Setup none, .ChainParameters, .LogInfo "Detected Chain Parameters", .IpcFilePath,
          .LogDebug "celo nodes ipc file", .NewSqliteDb "/cfg/datadir/rosetta.db" none,
          .WithCancel, .WatchForExitSignals, .RunServices [sampleGethSrv, sampleDelayed],
          .NodeReady, .ExitSignal, .stopServices .signalWatcher, .RunServicesReturned none,
          .stopServices .deferred ] :=
  rfl

/-- C7 counterexample: in the sample run where a termination signal arrives and
RunServices then returns nil (the clean shutdown the spec describes for a
signal), stopServices is called twice: once by the signal watcher and once
more by the deferred call when runRunCmd returns. -/
theorem runRunCmd_stop_twice_on_signal :
    ¬ (Event.ExitSignal ∈ (runRunCmd (sampleRunEnv none true none true)).trace →
        stopCount (runRunCmd (sampleRunEnv none true none true)).trace = 1) := by
  rw [sample_trace_signal_clean]
  intro h
  have h1 := h (by simp)
  revert h1
  decide

/-- C7 amended: in every execution of runRunCmd in which a termination signal is
received through the signal watcher, the watcher had been installed, and the
steps before its installation hold no call of stopServices and no receipt of
the signal (so an execution cut short by a signal before the installation
has made no call); the watching goroutine calls stopServices at most once,
and exactly once when it gets to run before the process ends; the deferred
call adds one more call exactly when RunServices returns nil and runRunCmd
returns, and none when RunServices returns an error and the process exits
with status 1; these are all the calls, so their number lies between zero
and two. -/
theorem runRunCmd_stop_on_signal (env : RunEnv)
    (h : Event.ExitSignal ∈ (runRunCmd env).trace) :
    (Event.WatchForExitSignals ∈ (runRunCmd env).trace ∧
      stopCount (beforeWatcher (runRunCmd env).trace) = 0 ∧
      Event.ExitSignal ∉ beforeWatcher (runRunCmd env).trace) ∧
    stopCountBy .signalWatcher (runRunCmd env).trace = (if env.watcherRuns then 1 else 0) ∧
    stopCount (runRunCmd env).trace =
      stopCountBy .signalWatcher (runRunCmd env).trace +
        stopCountBy .deferred (runRunCmd env).trace ∧
    ((Event.RunServicesReturned none ∈ (runRunCmd env).trace ∧ (runRunCmd env).exit = none ∧
        stopCountBy .deferred (runRunCmd env).trace = 1) ∨
     (∃ e, Event.RunServicesReturned (some e) ∈ (runRunCmd env).trace ∧
        (runRunCmd env).exit = some 1 ∧
        stopCountBy .deferred (runRunCmd env).trace = 0)) := by
  have hpre := getDatadir_preamble env
  obtain ⟨-, -, h3, -, -, -, h7, -⟩ := getDatadir_trace_facts env
  rcases hgd : getDatadir env with ⟨t0, code | datadir⟩
  all_goals simp only [hgd] at hpre h3 h7
  all_goals revert h
  all_goals simp only [runRunCmd, hgd]
  · intro h
    exact absurd h h7
  · repeat' split
    all_goals intro h
    all_goals refine ⟨?_, ?_⟩
    all_goals first
      | (exfalso; revert h; simp_all; done)
      | (simp only [List.append_assoc]
         rw [beforeWatcher_preamble_append _ _ hpre, stopCount_preamble_append _ _ hpre]
         simp [beforeWatcher, Event.isWatch, stopCount, Event.isStop, h7])
      | (simp only [List.append_assoc]
         rw [stopCount_preamble_append _ _ hpre, stopCountBy_preamble_append _ _ _ hpre,
           stopCountBy_preamble_append _ _ _ hpre]
         simp_all [stopCount, stopCountBy, Event.isStop, exceptErr])

/-- C7 witness: the sample run in which a termination signal arrives. -/
theorem runRunCmd_stop_on_signal_witness :
    Event.ExitSignal ∈ (runRunCmd (sampleRunEnv none true none true)).trace ∧
    ((Event.WatchForExitSignals ∈ (runRunCmd (sampleRunEnv none true none true)).trace ∧
      stopCount (beforeWatcher (runRunCmd (sampleRunEnv none true none true)).trace) = 0 ∧
      Event.ExitSignal ∉ beforeWatcher (runRunCmd (sampleRunEnv none true none true)).trace) ∧
    stopCountBy .signalWatcher (runRunCmd (sampleRunEnv none true none true)).trace =
      (if (sampleRunEnv none true none true).watcherRuns then 1 else 0) ∧
    stopCount (runRunCmd (sampleRunEnv none true none true)).trace =
      stopCountBy .signalWatcher (runRunCmd (sampleRunEnv none true none true)).trace +
        stopCountBy .deferred (runRunCmd (sampleRunEnv none true none true)).trace ∧
    ((Event.RunServicesReturned none ∈ (runRunCmd (sampleRunEnv none true none true)).trace ∧
        (runRunCmd (sampleRunEnv none true none true)).exit = none ∧
        stopCountBy .deferred (runRunCmd (sampleRunEnv none true none true)).trace = 1) ∨
     (∃ e, Event.RunServicesReturned (some e)
          ∈ (runRunCmd (sampleRunEnv none true none true)).trace ∧
        (runRunCmd (sampleRunEnv none true none true)).exit = some 1 ∧
        stopCountBy .deferred (runRunCmd (sampleRunEnv none true none true)).trace = 0))) :=
  have hm : Event.ExitSignal ∈ (runRunCmd (sampleRunEnv none true none true)).trace := by
    rw [sample_trace_signal_clean]; simp
  ⟨hm, runRunCmd_stop_on_signal _ hm⟩

/-! ## Theorems: ordering of node readiness and the factory invocation -/

/-- Running the node manager together with the delayed lazy rosetta service from
time t on: the node process is spawned at t, the node is Ready when its
endpoint appears, and the factory is invoked at t plus five seconds unless
the scope was cancelled by then. -/
theorem RunServices_timeline (w : Timing) (a b c : String) (d : List String)
    (factory : ServieFactory) (t : Nat) :
    RunServices w [.GethService a b c d,
        .WithDelay (.LazyService "rosetta" factory) (5 * Second)] t =
      (t, Tick.NodeSpawned) ::
        ((match w.readyAfter with
          | some r => if w.cancelledBy (t + r) then [] else [(t + r, Tick.NodeReady)]
          | none => []) ++
         (if w.cancelledBy (t + 5 * Second) then []
          else [(t + 5 * Second, Tick.FactoryInvoked "rosetta" factory)])) := by
  simp only [RunServices, Service.run, Service.runAll, List.append_nil, List.cons_append]

/-- With the node manager and the delayed lazy rosetta service started together,
the node is Ready strictly before the factory is invoked exactly when the
factory is never invoked (the scope was cancelled within five seconds) or the
node needs less than five seconds to become ready. -/
theorem readyBeforeFactory_iff (w : Timing) (a b c : String) (d : List String)
    (factory : ServieFactory) (t : Nat) :
    readyBeforeFactory (RunServices w [.GethService a b c d,
        .WithDelay (.LazyService "rosetta" factory) (5 * Second)] t) ↔
      (w.cancelledBy (t + 5 * Second) = true ∨ ∃ r, w.readyAfter = some r ∧ r < 5 * Second) := by
  rw [RunServices_timeline]
  rcases w with ⟨ra, ca⟩
  rcases ra with _ | r <;> rcases ca with _ | cc <;>
    simp [readyBeforeFactory, Timing.cancelledBy]
  · constructor
    · intro h
      by_contra hc
      exact h _ _ factory (by omega) rfl rfl rfl
    · intro hle tf name f1 hlt
      omega
  · constructor
    · intro h
      have := h _ _ _ rfl rfl rfl
      omega
    · intro hr tf name f1 htf _ _
      omega
  · constructor
    · intro h
      by_cases hc : cc ≤ t + 5 * Second
      · exact Or.inl hc
      · obtain ⟨tr, ⟨_, htr⟩, hlt⟩ := h _ _ _ (by omega) rfl rfl rfl
        exact Or.inr (by omega)
    · rintro (hle | hr) tf name f1 hlt htf _ _
      · omega
      · exact ⟨t + r, ⟨by omega, rfl⟩, by omega⟩

/-- C8 counterexample: the services of the sample run are the node manager and
the lazy rosetta service behind a five second delay, handed together to one
RunServices call; when the node needs six seconds to become ready, the factory
is invoked at five seconds, before the node is Ready. -/
theorem runRunCmd_factory_before_Ready :
    Event.RunServices [sampleGethSrv, sampleDelayed] ∈
      (runRunCmd (sampleRunEnv none true none true)).trace ∧
    RunServices { readyAfter := some (6 * Second), cancelAt := none }
        [sampleGethSrv, sampleDelayed] 0 =
      [ (0, .NodeSpawned), (6 * Second, .NodeReady),
        (5 * Second, .FactoryInvoked "rosetta"
          (rosettaServiceFactory { ChainId := 42220, EpochSize := 17280 }
            "/cfg/datadir/celo/geth.ipc" { handle := 1 })) ] ∧
    ¬ readyBeforeFactory (RunServices { readyAfter := some (6 * Second), cancelAt := none }
        [sampleGethSrv, sampleDelayed] 0) := by
  refine ⟨?_, by decide, ?_⟩
  · rw [sample_trace_signal_clean]; simp
  · intro h
    obtain ⟨tr, hm, hlt⟩ := h (5 * Second) "rosetta"
      (rosettaServiceFactory { ChainId := 42220, EpochSize := 17280 }
        "/cfg/datadir/celo/geth.ipc" { handle := 1 }) (by decide)
    revert hlt hm
    simp [RunServices, Service.run, Service.runAll, sampleGethSrv, sampleDelayed,
      Timing.cancelledBy, Second]
    omega

/-- C8 amended: whenever runRunCmd calls RunServices, it hands it exactly the
node manager and the lazy rosetta service behind a five second delay, started
together; the factory is then invoked five seconds after that start unless the
scope is cancelled first, and the node is Ready strictly before the factory
invocation exactly when the factory is never invoked or the node needs less
than five seconds to become ready: the order rests on the delay. -/
theorem runRunCmd_factory_after_fixed_delay (env : RunEnv) (services : List Service)
    (h : Event.RunServices services ∈ (runRunCmd env).trace) :
    ∃ (a b c : String) (d : List String) (db : RosettaDB),
      services = [.GethService a b c d,
        .WithDelay (.LazyService "rosetta"
          (rosettaServiceFactory (env.ChainParameters (.GethService a b c d))
            (env.IpcFilePath (.GethService a b c d)) db)) (5 * Second)] ∧
      ∀ (w : Timing) (t : Nat),
        RunServices w services t =
          (t, Tick.NodeSpawned) ::
            ((match w.readyAfter with
              | some r => if w.cancelledBy (t + r) then [] else [(t + r, Tick.NodeReady)]
              | none => []) ++
             (if w.cancelledBy (t + 5 * Second) then []
              else [(t + 5 * Second, Tick.FactoryInvoked "rosetta"
                (rosettaServiceFactory (env.ChainParameters (.GethService a b c d))
                  (env.IpcFilePath (.GethService a b c d)) db))])) ∧
        (readyBeforeFactory (RunServices w services t) ↔
          (w.cancelledBy (t + 5 * Second) = true ∨
            ∃ r, w.readyAfter = some r ∧ r < 5 * Second)) := by
  have hshape : ∃ (a b c : String) (d : List String) (db : RosettaDB),
      services = [.GethService a b c d,
        .WithDelay (.LazyService "rosetta"
          (rosettaServiceFactory (env.ChainParameters (.GethService a b c d))
            (env.IpcFilePath (.GethService a b c d)) db)) (5 * Second)] := by
    obtain ⟨-, -, -, h4, -, -, -, -⟩ := getDatadir_trace_facts env
    rcases hgd : getDatadir env with ⟨t0, code | datadir⟩
    all_goals rw [hgd] at h4
    all_goals revert h
    all_goals simp only [runRunCmd, hgd]
    · intro h
      exact absurd h (h4 _)
    · repeat' split
      all_goals simp_all
      all_goals intro _
      all_goals exact ⟨_, _, _, _, ⟨rfl, rfl, rfl, rfl⟩, _, rfl⟩
  obtain ⟨a, b, c, d, db, rfl⟩ := hshape
  exact ⟨a, b, c, d, db, rfl, fun w t =>
    ⟨RunServices_timeline w a b c d _ t, readyBeforeFactory_iff w a b c d _ t⟩⟩

/-- C8 witness: the sample run reaches RunServices. -/
theorem runRunCmd_factory_after_fixed_delay_witness :
    Event.RunServices [sampleGethSrv, sampleDelayed] ∈
      (runRunCmd (sampleRunEnv none true none true)).trace ∧
    ∃ (a b c : String) (d : List String) (db : RosettaDB),
      [sampleGethSrv, sampleDelayed] = [.GethService a b c d,
        .WithDelay (.LazyService "rosetta"
          (rosettaServiceFactory
            ((sampleRunEnv none true none true).ChainParameters (.GethService a b c d))
            ((sampleRunEnv none true none true).IpcFilePath (.GethService a b c d)) db))
          (5 * Second)] ∧
      ∀ (w : Timing) (t : Nat),
        RunServices w [sampleGethSrv, sampleDelayed] t =
          (t, Tick.NodeSpawned) ::
            ((match w.readyAfter with
              | some r => if w.cancelledBy (t + r) then [] else [(t + r, Tick.NodeReady)]
              | none => []) ++
             (if w.cancelledBy (t + 5 * Second) then []
              else [(t + 5 * Second, Tick.FactoryInvoked "rosetta"
                (rosettaServiceFactory
                  ((sampleRunEnv none true none true).ChainParameters (.GethService a b c d))
                  ((sampleRunEnv none true none true).IpcFilePath (.GethService a b c d))
                  db))])) ∧
        (readyBeforeFactory (RunServices w [sampleGethSrv, sampleDelayed] t) ↔
          (w.cancelledBy (t + 5 * Second) = true ∨
            ∃ r, w.readyAfter = some r ∧ r < 5 * Second)) :=
  have hm : Event.RunServices [sampleGethSrv, sampleDelayed] ∈
      (runRunCmd (sampleRunEnv none true none true)).trace := by
    rw [sample_trace_signal_clean]; simp
  ⟨hm, runRunCmd_factory_after_fixed_delay (sampleRunEnv none true none true)
    [sampleGethSrv, sampleDelayed] hm⟩

end Rosetta
